import Mathlib

/-!
Shallow embedding of the certificate lifecycle and status core of the
pvxs secure PVAccess runtime, together with theorems settling the claims
about it.  Every definition is translated from the C++ sources: the status
enums and status records of certs/certstatus.h, the OCSP token parser of
src/certstatusmanager.cpp, the TLS verify hook of ossl (openssl.cpp, staged
inside tools/cert.cpp), the sweep SQL of certs/pvacms.h and the exit paths
of the command line tool in tools/cert.cpp.  Definitions whose doc comment
says so embed the specification wording instead, for comparison against the
code level definition.
-/

namespace pvxs

/-- The PVA certificate statuses, in declaration order of the
CERT_STATUS_LIST X macro of certstatus.h (lines 60 to 66). -/
inductive certstatus_t
  | UNKNOWN
  | PENDING_APPROVAL
  | PENDING
  | VALID
  | EXPIRED
  | REVOKED
deriving DecidableEq

/-- The OCSP certificate statuses, from the OCSP_CERT_STATUS_LIST X macro of
certstatus.h (lines 69 to 72); the numeric values are the OpenSSL
V_OCSP_CERTSTATUS constants. -/
inductive ocspcertstatus_t
  | OCSP_CERTSTATUS_GOOD
  | OCSP_CERTSTATUS_REVOKED
  | OCSP_CERTSTATUS_UNKNOWN
deriving DecidableEq

/-- One certificate status record.  Flattens CertificateStatus of
certstatus.h (lines 404 to 451), which derives from OCSPStatus (lines 359
to 394): the PVA status, the OCSP status and the three StatusDate fields,
each kept as its time_t value (seconds since the epoch).  The raw
ocsp_bytes are not carried here; where a claim depends on them they are
modelled separately. -/
structure CertificateStatusRec where
  status : certstatus_t
  ocsp_status : ocspcertstatus_t
  status_date : Int
  status_valid_until_date : Int
  revocation_date : Int
deriving DecidableEq

/-- Embeds OCSPStatus::isValid (certstatus.h lines 381 to 384):
return status_valid_until_date.t > now, with the wall clock time passed
explicitly in place of the time(nullptr) call. -/
def CertificateStatusRec.isValid (s : CertificateStatusRec) (now : Int) : Bool :=
  decide (s.status_valid_until_date > now)

/-- Embeds OCSPStatus::isGood (certstatus.h line 386):
return isValid() && ocsp_status == OCSP_CERTSTATUS_GOOD. -/
def CertificateStatusRec.isGood (s : CertificateStatusRec) (now : Int) : Bool :=
  s.isValid now && s.ocsp_status == ocspcertstatus_t.OCSP_CERTSTATUS_GOOD

/-- Embeds the WHERE clause of SQL_CERT_TO_VALID (pvacms.h lines 115 to
119): not_before less or equal now AND not_after greater than now, with now
the current epoch second as strftime produces it. -/
def sqlCertToValidSelects (now not_before not_after : Int) : Bool :=
  decide (not_before ≤ now) && decide (not_after > now)

/-- Embeds the WHERE clause of SQL_CERT_TO_EXPIRED (pvacms.h lines 121 to
124): not_after less or equal now. -/
def sqlCertToExpiredSelects (now not_after : Int) : Bool :=
  decide (not_after ≤ now)

/-- OpenSSL error code X509_V_ERR_DEPTH_ZERO_SELF_SIGNED_CERT. -/
def X509_V_ERR_DEPTH_ZERO_SELF_SIGNED_CERT : Nat := 18

/-- OpenSSL error code X509_V_ERR_SELF_SIGNED_CERT_IN_CHAIN. -/
def X509_V_ERR_SELF_SIGNED_CERT_IN_CHAIN : Nat := 19

/-- OpenSSL error code X509_V_ERR_UNABLE_TO_GET_ISSUER_CERT_LOCALLY. -/
def X509_V_ERR_UNABLE_TO_GET_ISSUER_CERT_LOCALLY : Nat := 20

/-- The environment the ossl_verify hook (openssl.cpp, staged in
tools/cert.cpp lines 907 to 954) consults for one invocation:
whether the current certificate carries the status PV extension
(CertStatusManager::statusMonitoringRequired), whether the TLS context has
status checking enabled (CertStatusExData::status_check_enabled), the
cached peer status for the certificate serial if any
(getCachedPeerStatus), the outcome of a synchronous
CertStatusManager::getStatus fetch (none when it throws a runtime error),
and the X509_STORE_CTX error code read in the preverify failed branch. -/
structure VerifyContext where
  has_status_ext : Bool
  status_check_enabled : Bool
  cached_status : Option CertificateStatusRec
  fetch_result : Option CertificateStatusRec
  err : Nat
deriving DecidableEq

/-- Embeds ossl_verify (openssl.cpp, staged in tools/cert.cpp lines 907 to
954).  preverify_ok and the returned int are kept as Nat exactly as in C.
When preverify_ok is nonzero: without the status extension return
preverify_ok; with status checking enabled take the cached status, refetch
when it is absent or no longer valid (a fetch failure is caught and
returns 0), return 0 when the resulting status is not good, otherwise fall
through to return preverify_ok.  When preverify_ok is zero the source
returns preverify_ok on the three self signed chain error codes (the
comment there says the certificate is accepted) and also returns
preverify_ok, after logging, for every other error code. -/
def ossl_verify (preverify_ok : Nat) (now : Int) (c : VerifyContext) : Nat :=
  if preverify_ok ≠ 0 then
    if !c.has_status_ext then preverify_ok
    else if c.status_check_enabled then
      match c.cached_status with
      | some s =>
        if s.isValid now then
          if !(s.isGood now) then 0 else preverify_ok
        else
          match c.fetch_result with
          | none => 0
          | some f => if !(f.isGood now) then 0 else preverify_ok
      | none =>
        match c.fetch_result with
        | none => 0
        | some f => if !(f.isGood now) then 0 else preverify_ok
    else preverify_ok
  else
    if c.err = X509_V_ERR_UNABLE_TO_GET_ISSUER_CERT_LOCALLY
        ∨ c.err = X509_V_ERR_DEPTH_ZERO_SELF_SIGNED_CERT
        ∨ c.err = X509_V_ERR_SELF_SIGNED_CERT_IN_CHAIN then
      preverify_ok
    else
      preverify_ok

/-- The peer status ossl_verify ends up judging, in the words of claim C4:
the cached entry when it is still valid, otherwise whatever the
synchronous fetch produced (none when the fetch failed). -/
def obtainedPeerStatus (now : Int) (c : VerifyContext) : Option CertificateStatusRec :=
  match c.cached_status with
  | some s => if s.isValid now then some s else c.fetch_result
  | none => c.fetch_result

/-- The content the (out of staging) OCSPStatus::init routine decodes out
of a non empty ocsp_bytes array: the certified OCSP status and the three
dates.  The CertificateStatus value constructor compares these against the
plain fields of the received PV value. -/
structure OCSPParsedContent where
  ocsp_status : ocspcertstatus_t
  status_date : Int
  status_valid_until_date : Int
  revocation_date : Int
deriving DecidableEq

/-- The fields of a received status PV value that the CertificateStatus
value constructor (certstatus.h lines 415 to 426) reads: the PVA status
index, the ocsp_response byte array abstracted to the content it decodes
to (none for an empty array), and the three plain date strings of the
value, each abstracted to the time_t its StatusDate parses to. -/
structure StatusValue where
  status_index : certstatus_t
  ocsp_response : Option OCSPParsedContent
  ocsp_status_date : Int
  ocsp_certified_until : Int
  ocsp_revocation_date : Int
deriving DecidableEq

/-- Embeds CertificateStatus::selfConsistent (certstatus.h lines 443 to
446). -/
def selfConsistent (ocsp : ocspcertstatus_t) (status : certstatus_t) : Bool :=
  (ocsp == ocspcertstatus_t.OCSP_CERTSTATUS_UNKNOWN
      && !(status == certstatus_t.VALID || status == certstatus_t.REVOKED))
    || (ocsp == ocspcertstatus_t.OCSP_CERTSTATUS_REVOKED && status == certstatus_t.REVOKED)
    || (ocsp == ocspcertstatus_t.OCSP_CERTSTATUS_GOOD && status == certstatus_t.VALID)

/-- Embeds CertificateStatus::dateConsistent (certstatus.h lines 448 to
450): the three decoded dates must equal the dates of the plain value
fields, compared on their time_t. -/
def dateConsistent (parsed : OCSPParsedContent) (sd vu rd : Int) : Bool :=
  (parsed.status_date == sd) && (parsed.status_valid_until_date == vu)
    && (parsed.revocation_date == rd)

/-- The OCSPParseException the value constructor raises. -/
inductive StatusErr
  | ocspParse
deriving DecidableEq

/-- Embeds the CertificateStatus value constructor (certstatus.h lines 415
to 426).  With an empty ocsp_response the constructor returns before any
check (the ocsp side fields stay as the out of staging init routine left
them; the claims do not touch that branch, the UNKNOWN defaults stand in
for it).  With a non empty ocsp_response it raises OCSPParseException
unless selfConsistent and dateConsistent both hold, and otherwise yields
the record combining the PVA status of the value with the decoded OCSP
fields. -/
def certificateStatusOfValue (v : StatusValue) : Except StatusErr CertificateStatusRec :=
  match v.ocsp_response with
  | none =>
    Except.ok
      { status := v.status_index
        ocsp_status := ocspcertstatus_t.OCSP_CERTSTATUS_UNKNOWN
        status_date := 0
        status_valid_until_date := 0
        revocation_date := 0 }
  | some parsed =>
    if !(selfConsistent parsed.ocsp_status v.status_index)
        || !(dateConsistent parsed v.ocsp_status_date v.ocsp_certified_until
              v.ocsp_revocation_date) then
      Except.error StatusErr.ocspParse
    else
      Except.ok
        { status := v.status_index
          ocsp_status := parsed.ocsp_status
          status_date := parsed.status_date
          status_valid_until_date := parsed.status_valid_until_date
          revocation_date := parsed.revocation_date }

/-- The consistency invariants of the specification data model (section 3):
GOOD iff VALID, REVOKED iff REVOKED, UNKNOWN only outside VALID and
REVOKED. -/
def statusConsistencyProp (ocsp : ocspcertstatus_t) (pva : certstatus_t) : Prop :=
  (ocsp = ocspcertstatus_t.OCSP_CERTSTATUS_GOOD ↔ pva = certstatus_t.VALID)
    ∧ (ocsp = ocspcertstatus_t.OCSP_CERTSTATUS_REVOKED ↔ pva = certstatus_t.REVOKED)
    ∧ (ocsp = ocspcertstatus_t.OCSP_CERTSTATUS_UNKNOWN →
        pva ≠ certstatus_t.VALID ∧ pva ≠ certstatus_t.REVOKED)

instance (ocsp : ocspcertstatus_t) (pva : certstatus_t) :
    Decidable (statusConsistencyProp ocsp pva) := by
  unfold statusConsistencyProp; infer_instance

/-- The OCSPParseException raised at each failure point of
CertStatusManager::parse and its helpers (certstatusmanager.cpp lines 44
to 110): getOCSPResponse failing, OCSP_response_status not successful,
OCSP_response_get1_basic failing, verifyOCSPResponse throwing,
OCSP_resp_get0 returning nothing, a REVOKED status without revocation
time. -/
inductive ParseErr
  | malformed
  | notSuccessful
  | noBasic
  | verifyFailed
  | noSingle
  | revokedNoTime
deriving DecidableEq

/-- A status token byte sequence abstracted to the view the OpenSSL calls
inside CertStatusManager::parse give of it: whether the bytes decode as an
OCSP_RESPONSE, its response status, whether a basic response can be
extracted, whether verifyOCSPResponse accepts the embedded signer chain,
whether a first single response exists, and that single response content:
serial, OCSP status, thisUpdate, nextUpdate and the optional revocation
time (none models a null ASN1 time pointer). -/
structure OCSPResponseModel where
  decodable : Bool
  response_status : Nat
  has_basic : Bool
  signer_verified : Bool
  has_single : Bool
  serial : Nat
  ocsp_status : ocspcertstatus_t
  this_update : Int
  next_update : Int
  revocation_time : Option Int
deriving DecidableEq

/-- OpenSSL constant: OCSP_RESPONSE_STATUS_SUCCESSFUL. -/
def OCSP_RESPONSE_STATUS_SUCCESSFUL : Nat := 0

/-- The struct ParsedOCSPStatus of certstatus.h (lines 341 to 350) as
parse returns it: serial, OCSP status, status date (thisUpdate), status
valid until date (nextUpdate) and revocation date.  The revocation date
keeps the nullability of the ASN1 pointer it is built from (StatusDate
maps a null pointer to epoch 0). -/
structure ParsedOCSPStatus where
  serial : Nat
  ocsp_status : ocspcertstatus_t
  status_date : Int
  status_valid_until_date : Int
  revocation_date : Option Int
deriving DecidableEq

/-- OpenSSL OCSP_check_validity(thisupd, nextupd, nsec, maxsec) at wall
time now: thisupd must not lie more than nsec in the future, must not be
older than maxsec when maxsec is non negative, and nextupd must not lie
more than nsec in the past.  CertStatusManager::parse computes this check
and discards its result, which the embedding below mirrors. -/
def OCSP_check_validity (thisupd nextupd nsec maxsec now : Int) : Bool :=
  decide (thisupd ≤ now + nsec)
    && (decide (maxsec < 0) || decide (now - maxsec ≤ thisupd))
    && decide (now - nsec ≤ nextupd)

namespace CertStatusManager

/-- Embeds CertStatusManager::parse (certstatusmanager.cpp lines 70 to
110) over the abstract token view, with the wall clock passed explicitly.
Each throw of the source is an error value here, in source order.  The
OCSP_check_validity call at line 103 is bound and never used, exactly as
the source ignores its return value. -/
def parse (now : Int) (r : OCSPResponseModel) : Except ParseErr ParsedOCSPStatus :=
  if !r.decodable then Except.error ParseErr.malformed
  else if r.response_status != OCSP_RESPONSE_STATUS_SUCCESSFUL then
    Except.error ParseErr.notSuccessful
  else if !r.has_basic then Except.error ParseErr.noBasic
  else if !r.signer_verified then Except.error ParseErr.verifyFailed
  else if !r.has_single then Except.error ParseErr.noSingle
  else
    let _validity := OCSP_check_validity r.this_update r.next_update 0 5 now
    if r.ocsp_status == ocspcertstatus_t.OCSP_CERTSTATUS_REVOKED
        && r.revocation_time == none then
      Except.error ParseErr.revokedNoTime
    else
      Except.ok
        { serial := r.serial
          ocsp_status := r.ocsp_status
          status_date := r.this_update
          status_valid_until_date := r.next_update
          revocation_date := r.revocation_time }

end CertStatusManager

/-- The decisions and outcomes of one run of the certificate tool main
(tools/cert.cpp lines 63 to 276), in the order the source tests them:
the help and version flags, argc, the password flag, whether a cert file
was given (-f), whether an action flag was given (-A, -R or -D), whether
the -F format string was empty or parsed (stringToFormat throws
std::invalid_argument otherwise, caught only by the outer catch), whether
reading the cert file succeeded, whether starting the operation threw,
whether done.wait returned before the timeout, and whether a cert_id
positional argument was supplied. -/
structure CliRun where
  help : Bool
  show_version : Bool
  argc : Nat
  password_flag : Bool
  has_cert_file : Bool
  has_action : Bool
  format_valid : Bool
  file_read_ok : Bool
  op_start_ok : Bool
  waited : Bool
  has_cert_id : Bool
deriving DecidableEq

/-- Embeds the exit code of the certificate tool main (tools/cert.cpp
lines 63 to 276): help exits 0; -V with extra arguments returns 1 else 0;
-p without -f returns 1; -f with an action flag returns 2; a bad -F format
string throws and lands in the outer catch which returns 6; a cert file
read failure returns 3; a throw while starting the operation returns 3; a
timed out wait returns 4; then 0 when no cert_id positional was given and
5 when one was, regardless of why done was signalled. -/
def cliExitCode (r : CliRun) : Nat :=
  if r.help then 0
  else if r.show_version then (if r.argc > 2 then 1 else 0)
  else if r.password_flag && !r.has_cert_file then 1
  else if r.has_cert_file && r.has_action then 2
  else if !r.format_valid then 6
  else if r.has_cert_file && !r.file_read_ok then 3
  else if !r.op_start_ok then 3
  else if !r.waited then 4
  else if !r.has_cert_id then 0
  else 5

/-- The exception of CertStatus::getIssuerId when the certificate has no
Subject Key Identifier extension (certstatus.h line 156). -/
inductive CertErr
  | missingSKI
deriving DecidableEq

/-- One octet of the SKI extension rendered by getIssuerId's stream
insertion: std::hex with setw(2) and setfill of zero prints an octet as
exactly two lowercase hex digits. -/
def cppHexByte (b : Fin 256) : List Char :=
  [Nat.digitChar (b.val / 16), Nat.digitChar (b.val % 16)]

/-- Embeds the loop of CertStatus::getIssuerId (certstatus.h lines 160 to
164): bytes are streamed while the output position (tellp, the
accumulated length) is below 8. -/
def issuerIdLoop : List (Fin 256) → List Char → List Char
  | [], acc => acc
  | b :: rest, acc =>
    if acc.length < 8 then issuerIdLoop rest (acc ++ cppHexByte b) else acc

/-- Embeds CertStatus::getIssuerId (certstatus.h lines 153 to 167) over
the optional SKI octet string of the certificate: none models a missing
Subject Key Identifier extension, in which case the source throws. -/
def getIssuerId (skid : Option (List (Fin 256))) : Except CertErr String :=
  match skid with
  | none => Except.error CertErr.missingSKI
  | some bytes => Except.ok (issuerIdLoop bytes []).asString

/-- The full lowercase hex rendering of the SKI octets, as claim C8 words
it; getIssuerId is compared against its first 8 characters. -/
def skiHexChars (bytes : List (Fin 256)) : List Char :=
  (bytes.map cppHexByte).flatten

/-- One lowercase hexadecimal digit: 0 to 9 or a to f. -/
def isLowerHexChar (ch : Char) : Bool :=
  ch.isDigit || (decide (97 ≤ ch.toNat) && decide (ch.toNat ≤ 102))

/-- Digit rendering of an ostream integer insertion: most significant
first, at least one digit, lowercase letters above 9.  The fuel argument
mirrors the core library rendering loop and always suffices at fuel n + 1. -/
def digitsCore (base : Nat) : Nat → Nat → List Char → List Char
  | 0, _, ds => ds
  | fuel + 1, n, ds =>
    let d := Nat.digitChar (n % base)
    let n2 := n / base
    if n2 = 0 then d :: ds else digitsCore base fuel n2 (d :: ds)

/-- Decimal rendering of a serial as operator less less prints a uint64_t
in the default dec base. -/
def decDigits (n : Nat) : List Char := digitsCore 10 (n + 1) n []

/-- Hexadecimal rendering of a number, lowercase. -/
def hexDigits (n : Nat) : List Char := digitsCore 16 (n + 1) n []

/-- Zero fill on the left up to width w, as setw(w) with setfill of zero
pads a field that is shorter than w and leaves a longer one alone. -/
def padZeros (w : Nat) (l : List Char) : List Char :=
  List.replicate (w - l.length) '0' ++ l

/-- The GET_MONITOR_CERT_STATUS_ROOT macro of certstatus.h line 56. -/
def GET_MONITOR_CERT_STATUS_ROOT : String := "CERT:STATUS"

/-- Embeds CertStatus::makeStatusURI (certstatus.h lines 169 to 171):
SB() streams the root, a colon, the issuer id, a colon, then the serial
under setw(16) and setfill of zero.  No std::hex manipulator is applied,
so the serial is rendered in decimal. -/
def makeStatusURI (issuer_id : String) (serial : Nat) : String :=
  GET_MONITOR_CERT_STATUS_ROOT ++ ":" ++ issuer_id ++ ":"
    ++ (padZeros 16 (decDigits serial)).asString

/-- The status PV name as claim C1 and specification section 6 word it:
the serial rendered as exactly 16 hexadecimal digits zero padded on the
left.  Stated for comparison with makeStatusURI, which is the code level
definition. -/
def specStatusPVNameHex (issuer_id : String) (serial : Nat) : String :=
  GET_MONITOR_CERT_STATUS_ROOT ++ ":" ++ issuer_id ++ ":"
    ++ (padZeros 16 (hexDigits serial)).asString

/-- A concrete 8 hex digit issuer id used by the concrete instance
theorems. -/
def sampleIssuerId : String := "abcd1234"

/-- The numeric value a list of decimal digit characters denotes, most
significant first. -/
def decCharVal (ch : Char) : Nat := ch.toNat - 48

/-- Decimal value of a digit character list, most significant first. -/
def decValue (l : List Char) : Nat :=
  l.foldl (fun a ch => 10 * a + decCharVal ch) 0

/-- C6: for every status object and every current time now, the status is
reported fresh (isValid) iff now is strictly before the valid until date,
and reported good (isGood) iff it is fresh and its OCSP status is GOOD. -/
theorem isValid_isGood_spec (s : CertificateStatusRec) (now : Int) :
    (s.isValid now = true ↔ now < s.status_valid_until_date)
    ∧ (s.isGood now = true ↔
        (s.isValid now = true
          ∧ s.ocsp_status = ocspcertstatus_t.OCSP_CERTSTATUS_GOOD)) := by
  refine ⟨?_, ?_⟩
  · simp [CertificateStatusRec.isValid]
  · simp [CertificateStatusRec.isGood]

/-- C7 counterexample: at now equal to not_after the sweep SQL does select
the record for the EXPIRED transition although now is not strictly greater
than not_after, refuting the claim as stated at this concrete input. -/
theorem sweep_expired_boundary_cex :
    sqlCertToExpiredSelects 100 100 = true ∧ ¬ ((100 : Int) > 100) := by
  refine ⟨rfl, by decide⟩

/-- C7 amended: the sweep selects a record for the PENDING to VALID
transition exactly when not_before is less or equal now and now is
strictly before not_after, and selects it for the VALID to EXPIRED
transition exactly when now is greater or equal not_after. -/
theorem sweep_selection_spec (now not_before not_after : Int) :
    (sqlCertToValidSelects now not_before not_after = true
      ↔ (not_before ≤ now ∧ now < not_after))
    ∧ (sqlCertToExpiredSelects now not_after = true ↔ not_after ≤ now) := by
  refine ⟨?_, ?_⟩
  · simp [sqlCertToValidSelects]
  · simp [sqlCertToExpiredSelects]

/-- C3: contrary to the claim, a failed preverification is never turned
into an acceptance: ossl_verify returns preverify_ok in every branch of
the failure path, and preverify_ok is 0 there.  The first conjunct
evaluates the hook at a concrete self signed chain condition (the branch
whose source comment says the certificate is accepted) and the second
shows the hook returns 0 for every error code and context once
preverification failed. -/
theorem ossl_verify_rejects_self_signed :
    ossl_verify 0 0
        ⟨true, true, none, none, X509_V_ERR_DEPTH_ZERO_SELF_SIGNED_CERT⟩ = 0
    ∧ ∀ (now : Int) (c : VerifyContext), ossl_verify 0 now c = 0 := by
  refine ⟨rfl, ?_⟩
  intro now c
  simp [ossl_verify]

/-- C9: on a run in which a cert_id positional was supplied and the awaited
operation completed before the timeout (a successful status fetch), the
tool exits with code 5, the code the claim reserves for user interrupts;
and on a run with a cert file in which the wait was signalled (for example
by SIGINT), it exits 0.  The exit path cannot distinguish completion from
interruption: after the wait it returns 0 iff no cert_id was supplied. -/
theorem cliExitCode_success_returns_interrupt :
    cliExitCode
        { help := false
          show_version := false
          argc := 2
          password_flag := false
          has_cert_file := false
          has_action := false
          format_valid := true
          file_read_ok := true
          op_start_ok := true
          waited := true
          has_cert_id := true } = 5
    ∧ cliExitCode
        { help := false
          show_version := false
          argc := 3
          password_flag := false
          has_cert_file := true
          has_action := false
          format_valid := true
          file_read_ok := true
          op_start_ok := true
          waited := true
          has_cert_id := false } = 0 := by
  exact ⟨rfl, rfl⟩

/-- C2: a well formed, successfully verified status token whose validity
window ended long before the current time is still accepted by parse,
because the source discards the result of OCSP_check_validity.  At wall
time 1000000 a token with thisUpdate 0 and nextUpdate 10 fails the window
check (second conjunct) yet parse returns a ParsedOCSPStatus (first
conjunct). -/
theorem parse_accepts_expired_window :
    CertStatusManager.parse 1000000
        { decodable := true
          response_status := 0
          has_basic := true
          signer_verified := true
          has_single := true
          serial := 42
          ocsp_status := ocspcertstatus_t.OCSP_CERTSTATUS_GOOD
          this_update := 0
          next_update := 10
          revocation_time := none } =
      Except.ok
        { serial := 42
          ocsp_status := ocspcertstatus_t.OCSP_CERTSTATUS_GOOD
          status_date := 0
          status_valid_until_date := 10
          revocation_date := none }
    ∧ OCSP_check_validity 0 10 0 5 1000000 = false := by
  exact ⟨rfl, by decide⟩

/-- A good status is in particular a valid one, since isGood conjoins
isValid with the GOOD comparison. -/
theorem isGood_isValid (s : CertificateStatusRec) (now : Int) :
    s.isGood now = true → s.isValid now = true := by
  simp [CertificateStatusRec.isGood]
  intro h _
  exact h

/-- C4: with preverification passed (preverify_ok equal 1), the hook
returns preverify_ok unchanged when the certificate lacks the status PV
extension; with the extension present and status checking enabled it
accepts when a cached status exists and is good, rejects when no status
could be obtained (cache stale or absent and the synchronous fetch
failed), and rejects whenever the obtained status, cached or freshly
fetched, is not good. -/
theorem ossl_verify_preverified_status_gate (now : Int) (c : VerifyContext) :
    (c.has_status_ext = false → ossl_verify 1 now c = 1)
    ∧ (c.has_status_ext = true → c.status_check_enabled = true →
        (∀ s, c.cached_status = some s → s.isGood now = true →
          ossl_verify 1 now c = 1)
        ∧ (obtainedPeerStatus now c = none → ossl_verify 1 now c = 0)
        ∧ (∀ s, obtainedPeerStatus now c = some s → s.isGood now = false →
            ossl_verify 1 now c = 0)) := by
  refine ⟨?_, ?_⟩
  · intro h
    simp [ossl_verify, h]
  · intro hext hen
    refine ⟨?_, ?_, ?_⟩
    · intro s hs hg
      have hv := isGood_isValid s now hg
      simp [ossl_verify, hext, hen, hs, hv, hg]
    · intro hob
      cases hc : c.cached_status with
      | none =>
        unfold obtainedPeerStatus at hob
        rw [hc] at hob
        dsimp only at hob
        simp [ossl_verify, hext, hen, hc, hob]
      | some s =>
        unfold obtainedPeerStatus at hob
        rw [hc] at hob
        dsimp only at hob
        by_cases hv : s.isValid now = true
        · rw [if_pos hv] at hob
          exact absurd hob (by simp)
        · rw [if_neg hv] at hob
          have hv2 : s.isValid now = false := by simpa using hv
          simp [ossl_verify, hext, hen, hc, hv2, hob]
    · intro s hob hg
      cases hc : c.cached_status with
      | none =>
        unfold obtainedPeerStatus at hob
        rw [hc] at hob
        dsimp only at hob
        simp [ossl_verify, hext, hen, hc, hob, hg]
      | some t =>
        unfold obtainedPeerStatus at hob
        rw [hc] at hob
        dsimp only at hob
        by_cases hv : t.isValid now = true
        · rw [if_pos hv] at hob
          have ht : t = s := by
            simpa using hob
          subst ht
          simp [ossl_verify, hext, hen, hc, hv, hg]
        · rw [if_neg hv] at hob
          have hv2 : t.isValid now = false := by simpa using hv
          simp [ossl_verify, hext, hen, hc, hv2, hob, hg]

/-- The boolean selfConsistent check of the source decides exactly the
consistency invariants of the specification. -/
theorem selfConsistent_iff (ocsp : ocspcertstatus_t) (pva : certstatus_t) :
    selfConsistent ocsp pva = true ↔ statusConsistencyProp ocsp pva := by
  cases ocsp <;> cases pva <;> decide

/-- C5: a CertificateStatus built from a received status PV value whose
ocsp_response is non empty satisfies the consistency invariants (GOOD iff
VALID, REVOKED iff REVOKED, UNKNOWN only outside VALID and REVOKED), and
the construction raises OCSPParseException on any value whose certified
OCSP status and PVA status violate them. -/
theorem certificateStatus_consistency
    (v : StatusValue) (parsed : OCSPParsedContent)
    (hr : v.ocsp_response = some parsed) :
    (∀ r, certificateStatusOfValue v = Except.ok r →
      statusConsistencyProp r.ocsp_status r.status)
    ∧ (¬ statusConsistencyProp parsed.ocsp_status v.status_index →
        certificateStatusOfValue v = Except.error StatusErr.ocspParse) := by
  unfold certificateStatusOfValue
  rw [hr]
  dsimp only
  by_cases hb :
      (!(selfConsistent parsed.ocsp_status v.status_index)
        || !(dateConsistent parsed v.ocsp_status_date v.ocsp_certified_until
              v.ocsp_revocation_date)) = true
  · rw [if_pos hb]
    refine ⟨?_, ?_⟩
    · intro r h
      exact Except.noConfusion h
    · intro _
      rfl
  · rw [if_neg hb]
    have hb2 :
        (!(selfConsistent parsed.ocsp_status v.status_index)
          || !(dateConsistent parsed v.ocsp_status_date v.ocsp_certified_until
                v.ocsp_revocation_date)) = false := by
      simpa using hb
    have hself : selfConsistent parsed.ocsp_status v.status_index = true := by
      rcases Bool.or_eq_false_iff.mp hb2 with ⟨h1, _⟩
      simpa using h1
    refine ⟨?_, ?_⟩
    · intro r h
      cases h
      exact (selfConsistent_iff _ _).mp hself
    · intro hnot
      exact absurd ((selfConsistent_iff _ _).mp hself) hnot

/-- C5 witness: the theorem applied to a concrete inconsistent value, a
PVA status REVOKED paired with a certified OCSP status GOOD, whose
construction raises. -/
theorem certificateStatus_consistency_witness :
    certificateStatusOfValue
        { status_index := certstatus_t.REVOKED
          ocsp_response := some
            { ocsp_status := ocspcertstatus_t.OCSP_CERTSTATUS_GOOD
              status_date := 0
              status_valid_until_date := 0
              revocation_date := 0 }
          ocsp_status_date := 0
          ocsp_certified_until := 0
          ocsp_revocation_date := 0 } = Except.error StatusErr.ocspParse :=
  (certificateStatus_consistency
      { status_index := certstatus_t.REVOKED
        ocsp_response := some
          { ocsp_status := ocspcertstatus_t.OCSP_CERTSTATUS_GOOD
            status_date := 0
            status_valid_until_date := 0
            revocation_date := 0 }
        ocsp_status_date := 0
        ocsp_certified_until := 0
        ocsp_revocation_date := 0 }
      { ocsp_status := ocspcertstatus_t.OCSP_CERTSTATUS_GOOD
        status_date := 0
        status_valid_until_date := 0
        revocation_date := 0 }
      rfl).2 (by decide)

/-- C10: a status token accepted by parse whose status is REVOKED always
carries a revocation time, in the token and in the returned
ParsedOCSPStatus; and a token whose single response is REVOKED without a
revocation time is never returned, parse fails on it. -/
theorem parse_revoked_requires_time (now : Int) (r : OCSPResponseModel) :
    (∀ p, CertStatusManager.parse now r = Except.ok p →
      r.ocsp_status = ocspcertstatus_t.OCSP_CERTSTATUS_REVOKED →
      r.revocation_time ≠ none ∧ p.revocation_date ≠ none)
    ∧ (r.ocsp_status = ocspcertstatus_t.OCSP_CERTSTATUS_REVOKED →
      r.revocation_time = none →
      ∀ p, CertStatusManager.parse now r ≠ Except.ok p) := by
  unfold CertStatusManager.parse
  dsimp only
  split_ifs with h1 h2 h3 h4 h5 h6
  · exact ⟨fun p hp => absurd hp (by simp), fun _ _ p hp => absurd hp (by simp)⟩
  · exact ⟨fun p hp => absurd hp (by simp), fun _ _ p hp => absurd hp (by simp)⟩
  · exact ⟨fun p hp => absurd hp (by simp), fun _ _ p hp => absurd hp (by simp)⟩
  · exact ⟨fun p hp => absurd hp (by simp), fun _ _ p hp => absurd hp (by simp)⟩
  · exact ⟨fun p hp => absurd hp (by simp), fun _ _ p hp => absurd hp (by simp)⟩
  · exact ⟨fun p hp => absurd hp (by simp), fun _ _ p hp => absurd hp (by simp)⟩
  refine ⟨?_, ?_⟩
  · intro p hp hrev
    cases hp
    refine ⟨?_, ?_⟩
    · intro hnone
      exact h6 (by simp [hrev, hnone])
    · intro hnone
      have hnone2 : r.revocation_time = none := by simpa using hnone
      exact h6 (by simp [hrev, hnone2])
  · intro hrev hnone p hp
    exact h6 (by simp [hrev, hnone])

/-- Every digit character below base ten is a decimal digit. -/
theorem digitChar_isDigit : ∀ m : Nat, m < 10 → (Nat.digitChar m).isDigit = true := by
  decide

/-- decCharVal inverts Nat.digitChar below base ten. -/
theorem decCharVal_digitChar : ∀ m : Nat, m < 10 → decCharVal (Nat.digitChar m) = m := by
  decide

/-- Every digit character below base sixteen is a lowercase hex digit. -/
theorem digitChar_lower_hex :
    ∀ m : Nat, m < 16 → isLowerHexChar (Nat.digitChar m) = true := by
  decide

/-- Appending one digit multiplies the decimal value by ten and adds the
digit. -/
theorem decValue_append_digit (l : List Char) (ch : Char) :
    decValue (l ++ [ch]) = 10 * decValue l + decCharVal ch := by
  simp [decValue, List.foldl_append]

/-- Leading zero characters do not change the decimal value. -/
theorem decValue_replicate_zero (m : Nat) (l : List Char) :
    decValue (List.replicate m '0' ++ l) = decValue l := by
  induction m with
  | zero => rfl
  | succ m ih => exact ih

/-- The digit rendering loop at base ten, with enough fuel, prepends to ds
the decimal digits of n: their value is n, they are digit characters, and
there are at most k of them whenever n is below ten to the k. -/
theorem digitsCore_ten_spec :
    ∀ (fuel : Nat), ∀ (n : Nat) (ds : List Char), 0 < fuel → n < 10 ^ fuel →
      ∃ front : List Char,
        digitsCore 10 fuel n ds = front ++ ds
        ∧ decValue front = n
        ∧ (∀ ch ∈ front, ch.isDigit = true)
        ∧ (∀ k, 0 < k → n < 10 ^ k → front.length ≤ k) := by
  intro fuel
  induction fuel with
  | zero =>
    intro n ds h
    exact absurd h (by omega)
  | succ fuel ih =>
    intro n ds _ hn
    simp only [digitsCore]
    by_cases h0 : n / 10 = 0
    · rw [if_pos h0]
      have hn10 : n < 10 := (Nat.div_eq_zero_iff (by norm_num)).mp h0
      refine ⟨[Nat.digitChar (n % 10)], rfl, ?_, ?_, ?_⟩
      · calc decValue [Nat.digitChar (n % 10)]
            = decCharVal (Nat.digitChar (n % 10)) := by simp [decValue]
          _ = n % 10 := decCharVal_digitChar _ (Nat.mod_lt n (by norm_num))
          _ = n := Nat.mod_eq_of_lt hn10
      · intro ch hch
        have : ch = Nat.digitChar (n % 10) := by simpa using hch
        subst this
        exact digitChar_isDigit _ (Nat.mod_lt n (by norm_num))
      · intro k hk _
        simpa using hk
    · rw [if_neg h0]
      have h10 : 10 ≤ n := by
        by_contra hlt
        exact h0 (Nat.div_eq_of_lt (by omega))
      have hf : 0 < fuel := by
        by_contra hf0
        have hz : fuel = 0 := by omega
        subst hz
        simp at hn
        omega
      have hn2 : n / 10 < 10 ^ fuel := by
        rw [Nat.div_lt_iff_lt_mul (by norm_num)]
        calc n < 10 ^ (fuel + 1) := hn
          _ = 10 ^ fuel * 10 := by rw [pow_succ]
      obtain ⟨front, heq, hval, hdig, hlen⟩ :=
        ih (n / 10) (Nat.digitChar (n % 10) :: ds) hf hn2
      refine ⟨front ++ [Nat.digitChar (n % 10)], ?_, ?_, ?_, ?_⟩
      · rw [heq]
        simp
      · rw [decValue_append_digit, hval,
          decCharVal_digitChar _ (Nat.mod_lt n (by norm_num))]
        omega
      · intro ch hch
        rcases List.mem_append.mp hch with hm | hm
        · exact hdig ch hm
        · have : ch = Nat.digitChar (n % 10) := by simpa using hm
          subst this
          exact digitChar_isDigit _ (Nat.mod_lt n (by norm_num))
      · intro k hk hnk
        have hk2 : 2 ≤ k := by
          by_contra hk1
          have hone : k = 1 := by omega
          subst hone
          simp at hnk
          omega
        have hdiv : n / 10 < 10 ^ (k - 1) := by
          rw [Nat.div_lt_iff_lt_mul (by norm_num)]
          calc n < 10 ^ k := hnk
            _ = 10 ^ (k - 1) * 10 := by
              rw [← pow_succ]
              congr 1
              omega
        have hl := hlen (k - 1) (by omega) hdiv
        simp only [List.length_append, List.length_singleton]
        omega

/-- The decimal rendering of n: its value is n, its characters are digits,
and it is at most k characters long whenever n is below ten to the k. -/
theorem decDigits_spec (n : Nat) :
    decValue (decDigits n) = n
    ∧ (∀ ch ∈ decDigits n, ch.isDigit = true)
    ∧ (∀ k, 0 < k → n < 10 ^ k → (decDigits n).length ≤ k) := by
  have hn : n < 10 ^ (n + 1) :=
    lt_of_lt_of_le (Nat.lt_pow_self (by norm_num) n)
      (Nat.pow_le_pow_right (by norm_num) (Nat.le_succ n))
  obtain ⟨front, heq, hval, hdig, hlen⟩ :=
    digitsCore_ten_spec (n + 1) n [] (Nat.succ_pos n) hn
  unfold decDigits
  rw [heq]
  simp only [List.append_nil]
  exact ⟨hval, hdig, hlen⟩

/-- C1 counterexample: at issuer id abcd1234 and serial 255 the produced
status PV name carries the serial in zero padded decimal, not in the zero
padded hexadecimal form the claim states (which would end in ff), so the
claim fails at this concrete input. -/
theorem makeStatusURI_not_hex :
    makeStatusURI sampleIssuerId 255 = "CERT:STATUS:abcd1234:0000000000000255"
    ∧ makeStatusURI sampleIssuerId 255 ≠ specStatusPVNameHex sampleIssuerId 255 := by
  exact ⟨by decide, by decide⟩

/-- C1 amended: the status PV name is CERT:STATUS, the issuer id and the
serial separated by colons, with the serial rendered in decimal and zero
padded on the left to a minimum width of 16; for serials below ten to the
16 the serial field is exactly 16 characters of decimal digits denoting
the serial. -/
theorem makeStatusURI_decimal_padded (issuer_id : String) (serial : Nat)
    (h : serial < 10 ^ 16) :
    ∃ ds : List Char,
      makeStatusURI issuer_id serial =
        GET_MONITOR_CERT_STATUS_ROOT ++ ":" ++ issuer_id ++ ":" ++ ds.asString
      ∧ ds.length = 16
      ∧ (∀ ch ∈ ds, ch.isDigit = true)
      ∧ decValue ds = serial := by
  obtain ⟨hval, hdig, hlen⟩ := decDigits_spec serial
  have h16 : (decDigits serial).length ≤ 16 := hlen 16 (by norm_num) h
  refine ⟨padZeros 16 (decDigits serial), rfl, ?_, ?_, ?_⟩
  · simp only [padZeros, List.length_append, List.length_replicate]
    omega
  · intro ch hch
    simp only [padZeros] at hch
    rcases List.mem_append.mp hch with hm | hm
    · have : ch = '0' := (List.mem_replicate.mp hm).2
      subst this
      rfl
    · exact hdig ch hm
  · unfold padZeros
    rw [decValue_replicate_zero]
    exact hval

/-- C1 amended witness: the amended statement at issuer id abcd1234 and
serial 255. -/
theorem makeStatusURI_decimal_padded_witness :
    ∃ ds : List Char,
      makeStatusURI sampleIssuerId 255 =
        GET_MONITOR_CERT_STATUS_ROOT ++ ":" ++ sampleIssuerId ++ ":" ++ ds.asString
      ∧ ds.length = 16
      ∧ (∀ ch ∈ ds, ch.isDigit = true)
      ∧ decValue ds = 255 :=
  makeStatusURI_decimal_padded sampleIssuerId 255 (by norm_num)

/-- The getIssuerId loop started on an even accumulated length yields the
accumulator followed by the hex rendering of the bytes cut to the first 8
minus that length characters. -/
theorem issuerIdLoop_take (bytes : List (Fin 256)) :
    ∀ acc : List Char, acc.length % 2 = 0 →
      issuerIdLoop bytes acc = acc ++ (skiHexChars bytes).take (8 - acc.length) := by
  induction bytes with
  | nil =>
    intro acc _
    simp [issuerIdLoop, skiHexChars]
  | cons b rest ih =>
    intro acc heven
    by_cases hlt : acc.length < 8
    · simp only [issuerIdLoop]
      rw [if_pos hlt]
      have hlen : (acc ++ cppHexByte b).length = acc.length + 2 := by
        simp [cppHexByte]
      rw [ih (acc ++ cppHexByte b) (by omega), hlen]
      have h2 : 8 - acc.length = (8 - (acc.length + 2)) + 1 + 1 := by omega
      simp only [skiHexChars, List.map_cons, List.flatten_cons]
      rw [h2]
      simp [cppHexByte, List.take_succ_cons, List.append_assoc]
    · simp only [issuerIdLoop]
      rw [if_neg hlt]
      have h0 : 8 - acc.length = 0 := by omega
      rw [h0]
      simp

/-- C8: for a certificate whose Subject Key Identifier extension carries
the given octets, getIssuerId returns exactly the first 8 characters of
the lowercase hex rendering of those octets (all of them when the
rendering is shorter); every character of that rendering is a lowercase
hexadecimal digit; and for a certificate without the extension it fails
with the missing SKI error. -/
theorem getIssuerId_spec :
    (∀ bytes : List (Fin 256),
      getIssuerId (some bytes) = Except.ok ((skiHexChars bytes).take 8).asString)
    ∧ getIssuerId none = Except.error CertErr.missingSKI
    ∧ (∀ bytes : List (Fin 256), (skiHexChars bytes).all isLowerHexChar = true) := by
  refine ⟨?_, rfl, ?_⟩
  · intro bytes
    unfold getIssuerId
    dsimp only
    rw [issuerIdLoop_take bytes [] (by simp)]
    simp
  · intro bytes
    induction bytes with
    | nil => rfl
    | cons b rest ih =>
      simp only [skiHexChars, List.map_cons, List.flatten_cons, List.all_append]
      rw [Bool.and_eq_true]
      refine ⟨?_, ?_⟩
      · have h1 : b.val / 16 < 16 := by omega
        have h2 : b.val % 16 < 16 := Nat.mod_lt _ (by norm_num)
        simp [cppHexByte, digitChar_lower_hex _ h1, digitChar_lower_hex _ h2]
      · simpa [skiHexChars] using ih

end pvxs
